import Mathlib

/-!
Shallow embedding of `te2_sdk/te2.py` (Terraform Enterprise 2 Python SDK).

The remote HTTP API is abstracted as response data passed in explicitly:
a response is a status code together with the parsed `data` payload.
Python exceptions become the `PyErr` error type of `Except` results, and
side-effecting requests (discards, variable upserts, run creation, sleeps)
are collected in explicit effect traces.

Modelling conventions, each noted again at its definition:
  * the source compares strings with the `is`/`is not` operators; following
    the status-comparison design note of the specification these are
    embedded as string equality/inequality;
  * `str(status_code).startswith("2")` is embedded as `is2xx`, which looks
    at the leading decimal digit of the status code;
  * Python `str.replace(' ', '_')` with a one-character pattern is embedded
    as `underscoreSpaces`, a character-wise map;
  * the two unbounded `while`/polling loops take an explicit fuel argument;
    a `none` result means the loop is still running after `fuel` passes.
-/

/-- Python exceptions raised by the SDK, with their messages. -/
inductive PyErr where
  | keyErr (msg : String)
  | synErr (msg : String)
  | timeoutErr (msg : String)
  | attrErr (msg : String)
  | typeErr (msg : String)
deriving DecidableEq

/-- A run record as returned in the `data` payload of a run response:
`id`, `attributes.status` and `attributes.has-changes`. -/
structure Run where
  id : String
  status : String
  hasChanges : Bool
deriving DecidableEq

/-- A workspace record from the organization workspace listing:
`id` and `attributes.name`. -/
structure Workspace where
  id : String
  name : String
deriving DecidableEq

/-- A workspace variable record from the `/vars` listing:
`id` and `attributes.key`. -/
structure WVariable where
  id : String
  key : String
deriving DecidableEq

/-- An HTTP response: status code plus parsed `data` payload. -/
structure HttpResp (α : Type) where
  status : Nat
  body : α
deriving DecidableEq

/-- Embeds `str(request.status_code).startswith("2")`: the decimal
representation of the status code starts with the digit 2. -/
def is2xx (status : Nat) : Bool :=
  match (toString status).data with
  | [] => false
  | c :: _ => c == '2'

/-- Embeds Python `s.replace(' ', '_')` (one-character pattern): every
space character is replaced by an underscore. -/
def underscoreSpaces (s : String) : String :=
  String.mk (s.data.map (fun c => if c = ' ' then '_' else c))

/-- True when the string contains at least one space character. -/
def hasSpace (s : String) : Bool :=
  s.data.any (fun c => c = ' ')

/-- `TE2Client.get_all_workspaces`: on a 2xx listing response return its
`data`, otherwise raise `KeyError`. -/
def get_all_workspaces (resp : HttpResp (List Workspace)) :
    Except PyErr (List Workspace) :=
  if is2xx resp.status then Except.ok resp.body
  else Except.error (PyErr.keyErr "No workspaces can be found under this organisation")

/-- `TE2Client.get_workspace_id`: scan the workspace listing for an exact
name match and return its id; raise `KeyError` when absent (or when the
listing call itself raised). -/
def get_workspace_id (resp : HttpResp (List Workspace)) (workspace_name : String) :
    Except PyErr String :=
  match get_all_workspaces resp with
  | Except.error e => Except.error e
  | Except.ok objs =>
    match objs.find? (fun obj => obj.name == workspace_name) with
    | some obj => Except.ok obj.id
    | none => Except.error (PyErr.keyErr "Workspace ID Cannot be found")

/-- True exactly when the result is a raised `KeyError`. -/
def isKeyErr {α : Type} : Except PyErr α → Bool
  | Except.error (PyErr.keyErr _) => true
  | _ => false

/-- The attributes of a variable request body as rendered by
`_render_request_data_workplace_variable_attributes`; `hcl` records
whether the optional `hcl` attribute is present. -/
structure VarAttrs where
  key : String
  value : String
  category : String
  sensitive : Bool
  hcl : Bool
deriving DecidableEq

/-- `_render_request_data_workplace_variable_attributes`: the rendered
`data.attributes` of a variable request (the `hcl` field is added only
when requested). -/
def _render_request_data_workplace_variable_attributes
    (key value category : String) (sensitive : Bool) (hcl : Bool) : VarAttrs :=
  ⟨key, value, category, sensitive, hcl⟩

/-- A variable-store request actually sent on the wire by
`create_or_update_workspace_variable`: either a create
(`POST /vars`, body carrying the workspace filter) or an update
(`PATCH /vars/<id>`). -/
inductive VarEffect where
  | create (body : VarAttrs)
  | update (id : String) (body : VarAttrs)
deriving DecidableEq

/-- The attribute body carried by a variable-store request. -/
def VarEffect.body : VarEffect → VarAttrs
  | VarEffect.create b => b
  | VarEffect.update _ b => b

/-- `get_workspace_variables`: on a 2xx `/vars` listing return its `data`,
otherwise raise `KeyError`. -/
def get_workspace_variables (resp : HttpResp (List WVariable)) :
    Except PyErr (List WVariable) :=
  if is2xx resp.status then Except.ok resp.body
  else Except.error (PyErr.keyErr "Keys or Workspace do not exist")

/-- `get_variable_by_name`: look the key up in the variable listing and
return the first matching record (the whole record, not its id); raise
`KeyError` when absent or when the listing raised. -/
def get_variable_by_name (resp : HttpResp (List WVariable)) (name : String) :
    Except PyErr WVariable :=
  match get_workspace_variables resp with
  | Except.error e => Except.error e
  | Except.ok vars =>
    match vars.find? (fun var => var.key == name) with
    | some var => Except.ok var
    | none => Except.error (PyErr.keyErr "Name does not exist")

/-- `create_or_update_workspace_variable`, returning the list of variable
requests issued and the overall result.

Faithful to the source:
  * the category guard compares against "env" and "terraform";
  * the rendered body uses `underscoreSpaces` on key and value, while the
    existence lookup `get_variable_by_name` uses the original key;
  * any `KeyError` from the lookup (missing key or failed listing) takes
    the create branch, which issues one `POST /vars`;
  * in the update branch the source (line 318) computes the patch path as
    `"/vars/" + existing_variable`, concatenating a string with the whole
    variable record returned by `get_variable_by_name` (a dict), which
    raises `TypeError` before any PATCH request is issued. -/
def create_or_update_workspace_variable (varsResp : HttpResp (List WVariable))
    (postStatus : Nat) (key value category : String) (sensitive hcl : Bool) :
    List VarEffect × Except PyErr Bool :=
  if category != "env" && category != "terraform" then
    ([], Except.error (PyErr.synErr "Category should be env or terraform"))
  else
    let request_data := _render_request_data_workplace_variable_attributes
      (underscoreSpaces key) (underscoreSpaces value) category sensitive hcl
    match get_variable_by_name varsResp key with
    | Except.error _ =>
      ([VarEffect.create request_data],
       if is2xx postStatus then Except.ok true
       else Except.error (PyErr.synErr "Invalid Syntax"))
    | Except.ok _existing =>
      ([], Except.error (PyErr.typeErr "can only concatenate str to str"))

/-- A run status is terminal for the poll loop when it differs from both
"planning" and "applying" (the source uses `is not` comparisons; embedded
as string inequality). -/
def isTerminalStatus (s : String) : Bool :=
  !(s == "planning") && !(s == "applying")

/-- The poll loop of `_get_run_results`: `poll i` is the run record
returned by the i-th `GET /runs/<id>`, `x` the current iteration index,
and the remaining iteration count drives the recursion. Returns the
number of `time.sleep(10)` calls made together with the result; the loop
sleeps after every non-terminal poll (including the last one) and raises
`TimeoutError` when the iterations are exhausted. -/
def pollFrom (poll : Nat → Run) : Nat → Nat → Nat × Except PyErr Run
  | _, 0 => (0, Except.error (PyErr.timeoutErr "Plan took too long to resolve"))
  | x, fuel + 1 =>
    if isTerminalStatus (poll x).status then (0, Except.ok (poll x))
    else
      let r := pollFrom poll (x + 1) fuel
      (r.1 + 1, r.2)

/-- `_get_run_results` (waitForTerminal): guard the request type, then run
the poll loop for at most `timeout_count` iterations, returning the sleep
count and the terminal run record or the raised error. -/
def _get_run_results (poll : Nat → Run) (request_type : String)
    (timeout_count : Nat) : Nat × Except PyErr Run :=
  if request_type != "plan" && request_type != "apply" then
    (0, Except.error (PyErr.keyErr "request_type must be Plan or Apply"))
  else
    pollFrom poll 0 timeout_count

/-- One pass of the `for run in run_list` body of
`discard_all_pending_runs`, threading the `runs_to_discard` flag.
Faithful to the source: a run outside pending/planning/planned clears the
flag; a run in state exactly "planned" reaches the call
`self.discard_plan(run["id"])` (line 158) — a method that does not exist
on `TE2WorkspaceRuns` (only `discard_plan_by_id` is defined), so
`AttributeError` is raised there and no discard request is ever issued. -/
def discardPass : List Run → Bool → Bool × Except PyErr Unit
  | [], flag => (flag, Except.ok ())
  | r :: rest, flag =>
    if r.status == "planned" || r.status == "pending" || r.status == "planning" then
      if r.status == "planned" then
        (flag, Except.error
          (PyErr.attrErr "TE2WorkspaceRuns object has no attribute discard_plan"))
      else
        discardPass rest flag
    else
      discardPass rest false

/-- `discard_all_pending_runs` with fuel: `listings i` is the run list of
the i-th `GET /workspaces/<id>/runs`. Each executed pass starts with the
flag true (the source sets `runs_to_discard = True` once, and the loop
exits as soon as it is false); `none` means the while loop is still
running after `fuel` passes. -/
def discard_all_pending_runs (listings : Nat → List Run) :
    Nat → Nat → Option (Except PyErr Bool)
  | _, 0 => none
  | i, fuel + 1 =>
    match discardPass (listings i) true with
    | (_, Except.error e) => some (Except.error e)
    | (flag, Except.ok _) =>
      if flag then discard_all_pending_runs listings (i + 1) fuel
      else some (Except.ok true)

/-- A side-effecting request issued during `request_run`, in order:
variable-store requests, the `POST /runs` (or apply-action) submission,
and the `time.sleep(10)` calls of the poll loop. -/
inductive Effect where
  | varCreate (body : VarAttrs)
  | varUpdate (id : String) (body : VarAttrs)
  | runCreate (destroy : Bool)
  | sleep
deriving DecidableEq

/-- Lift a variable-store request into the `request_run` effect trace. -/
def VarEffect.toEffect : VarEffect → Effect
  | VarEffect.create b => Effect.varCreate b
  | VarEffect.update i b => Effect.varUpdate i b

/-- The remote responses a `request_run` execution can observe:
successive run listings for the discard loop, the workspace listing used
by the `TE2WorkspaceVariables` constructor, the `/vars` listing and the
variable-POST status used by the destroy-flag upsert, the run-submission
status and payload, and the successive poll responses. -/
structure World where
  workspaceName : String
  wsResp : HttpResp (List Workspace)
  runListings : Nat → List Run
  varsResp : HttpResp (List WVariable)
  varPostStatus : Nat
  runPostStatus : Nat
  runPostData : Run
  polls : Nat → Run

/-- The destroy-flag step of `_request_run_request`: when `destroy` is
set, construct `TE2WorkspaceVariables` (which resolves the workspace id
again) and upsert the `CONFIRM_DESTROY` variable. -/
def destroyStep (w : World) (destroy : Bool) : List Effect × Except PyErr Unit :=
  if destroy then
    match get_workspace_id w.wsResp w.workspaceName with
    | Except.error e => ([], Except.error e)
    | Except.ok _ =>
      let r := create_or_update_workspace_variable w.varsResp w.varPostStatus
        "CONFIRM_DESTROY" "1" "env" false false
      (r.1.map VarEffect.toEffect,
       match r.2 with
       | Except.ok _ => Except.ok ()
       | Except.error e => Except.error e)
  else ([], Except.ok ())

/-- `_request_run_request` as called from `request_run` (`run_id` is never
supplied there, so the plan path is always taken): discard all pending
runs, perform the destroy-flag step, then submit the run; a non-2xx
submission raises `SyntaxError`. Returns the effect trace and the
submitted run record, `none` when the discard loop is still running. -/
def _request_run_request (w : World) (destroy : Bool) (fuel : Nat) :
    Option (List Effect × Except PyErr Run) :=
  match discard_all_pending_runs w.runListings 0 fuel with
  | none => none
  | some (Except.error e) => some ([], Except.error e)
  | some (Except.ok _) =>
    match destroyStep w destroy with
    | (eff, Except.error e) => some (eff, Except.error e)
    | (eff, Except.ok _) =>
      if is2xx w.runPostStatus then
        some (eff ++ [Effect.runCreate destroy], Except.ok w.runPostData)
      else
        some (eff ++ [Effect.runCreate destroy],
          Except.error (PyErr.synErr "Invalid call to Terraform Enterprise 2"))

/-- The body of `request_run` up to (but not including) the `finally`
block: the effect trace, the value of the local variable `results` when
control reaches `finally` (`none` models the initial `{}`), and the
in-flight exception state (`Except.ok ()` when no exception is pending;
a `SyntaxError` from submission is caught by the `except SyntaxError`
handler and leaves `results = {}`). -/
def requestRunBody (w : World) (request_type : String) (destroy : Bool)
    (fuel : Nat) : Option (List Effect × Option Run × Except PyErr Unit) :=
  match _request_run_request w destroy fuel with
  | none => none
  | some (eff, Except.error (PyErr.synErr _)) => some (eff, none, Except.ok ())
  | some (eff, Except.error e) => some (eff, none, Except.error e)
  | some (eff, Except.ok _request) =>
    let r := _get_run_results w.polls request_type 120
    let sleeps := List.replicate r.1 Effect.sleep
    match r.2 with
    | Except.error e => some (eff ++ sleeps, none, Except.error e)
    | Except.ok run => some (eff ++ sleeps, some run, Except.ok ())

/-- `request_run` (requestRunAndWait): the `finally: return results`
block returns the accumulated `results` value whatever the in-flight
exception state is, so the caller never observes an exception; `none`
means the discard loop is still running. -/
def request_run (w : World) (request_type : String) (destroy : Bool)
    (fuel : Nat) : Option (List Effect × Option Run) :=
  match requestRunBody w request_type destroy fuel with
  | none => none
  | some (eff, results, _) => some (eff, results)

/-- Example worlds and runs used by the concrete witnesses below. -/
def plannedRun : Run := ⟨"run-stale", "planned", false⟩

def appliedRun : Run := ⟨"run-done", "applied", true⟩

def planningRun : Run := ⟨"run-busy", "planning", false⟩

/-- Poll responses whose first poll is non-terminal and whose second poll
is the terminal "planned" record. -/
def examplePoll : Nat → Run :=
  fun j => if j = 0 then planningRun else ⟨"run-7", "planned", true⟩

/-- If the poll loop sees `m` non-terminal responses from index `x` and a
terminal one at index `x + m`, with fuel to spare, it returns that record
after exactly `m` sleeps. -/
theorem pollFrom_first_terminal (poll : Nat → Run) :
    ∀ (fuel m x : Nat), m < fuel →
      (∀ j, j < m → isTerminalStatus (poll (x + j)).status = false) →
      isTerminalStatus (poll (x + m)).status = true →
      pollFrom poll x fuel = (m, Except.ok (poll (x + m))) := by
  intro fuel
  induction fuel with
  | zero => intro m x hm; exact absurd hm (Nat.not_lt_zero m)
  | succ f ih =>
    intro m x hm hnt ht
    cases m with
    | zero =>
      have hx : x + 0 = x := rfl
      rw [hx] at ht
      simp [pollFrom, ht]
    | succ m' =>
      have h0 : isTerminalStatus (poll x).status = false := by
        have := hnt 0 (Nat.succ_pos m')
        simpa using this
      have hrec : pollFrom poll (x + 1) f = (m', Except.ok (poll (x + 1 + m'))) := by
        apply ih m' (x + 1) (Nat.lt_of_succ_lt_succ hm)
        · intro j hj
          have e : x + 1 + j = x + (j + 1) := by omega
          rw [e]
          exact hnt (j + 1) (Nat.succ_lt_succ hj)
        · have e : x + 1 + m' = x + (m' + 1) := by omega
          rw [e]
          exact ht
      have e : x + 1 + m' = x + (m' + 1) := by omega
      rw [e] at hrec
      simp [pollFrom, h0, hrec]

/-- If every polled status up to the fuel bound is non-terminal, the poll
loop sleeps once per iteration and raises `TimeoutError`. -/
theorem pollFrom_timeout (poll : Nat → Run) :
    ∀ (fuel x : Nat),
      (∀ j, j < fuel → isTerminalStatus (poll (x + j)).status = false) →
      pollFrom poll x fuel
        = (fuel, Except.error (PyErr.timeoutErr "Plan took too long to resolve")) := by
  intro fuel
  induction fuel with
  | zero => intro x _; rfl
  | succ f ih =>
    intro x hnt
    have h0 : isTerminalStatus (poll x).status = false := by
      have := hnt 0 (Nat.succ_pos f)
      simpa using this
    have hrec : pollFrom poll (x + 1) f
        = (f, Except.error (PyErr.timeoutErr "Plan took too long to resolve")) := by
      apply ih
      intro j hj
      have e : x + 1 + j = x + (j + 1) := by omega
      rw [e]
      exact hnt (j + 1) (Nat.succ_lt_succ hj)
    simp [pollFrom, h0, hrec]

/-- Claim C1: for every poll oracle and every bound n ≥ 1,
`_get_run_results` returns the run record with no sleep when the first
poll is already terminal (not "planning"/"applying"); when the terminal
status first appears on the k-th poll (1-based, k ≤ n) it sleeps exactly
k - 1 times before returning that record; and when all n polls are still
non-terminal it raises `TimeoutError`. -/
theorem get_run_results_polling_spec (poll : Nat → Run) (n : Nat) (hn : 1 ≤ n) :
    (isTerminalStatus (poll 0).status = true →
      _get_run_results poll "plan" n = (0, Except.ok (poll 0)))
    ∧ (∀ k, 1 ≤ k → k ≤ n →
        (∀ j, j < k - 1 → isTerminalStatus (poll j).status = false) →
        isTerminalStatus (poll (k - 1)).status = true →
        _get_run_results poll "plan" n = (k - 1, Except.ok (poll (k - 1))))
    ∧ ((∀ j, j < n → isTerminalStatus (poll j).status = false) →
        _get_run_results poll "plan" n
          = (n, Except.error (PyErr.timeoutErr "Plan took too long to resolve"))) := by
  refine ⟨?_, ?_, ?_⟩
  · intro ht
    have := pollFrom_first_terminal poll n 0 0 hn (by intro j hj; omega)
      (by simpa using ht)
    simpa [_get_run_results] using this
  · intro k hk hkn hnt ht
    have hlt : k - 1 < n := by omega
    have := pollFrom_first_terminal poll n (k - 1) 0 hlt
      (by intro j hj; simpa using hnt j hj) (by simpa using ht)
    simpa [_get_run_results] using this
  · intro hnt
    have := pollFrom_timeout poll n 0 (by intro j hj; simpa using hnt j hj)
    simpa [_get_run_results] using this

/-- Witness for claim C1: with a first poll in status "planning" and a
second poll "planned", `_get_run_results` with bound 3 returns the
"planned" record after exactly one sleep. -/
theorem get_run_results_polling_spec_witness :
    _get_run_results examplePoll "plan" 3 = (1, Except.ok ⟨"run-7", "planned", true⟩) :=
  (get_run_results_polling_spec examplePoll 3 (by decide)).2.1 2 (by decide)
    (by decide) (by decide) (by decide)

/-- Claim C2 (code evidence): when every listing pass returns the empty
run list — a pass containing no run in pending/planning/planned state —
`discard_all_pending_runs` never terminates: the `runs_to_discard` flag
is only cleared inside the per-run loop body, which never executes, so
the while loop spins for any number of passes, starting anywhere. -/
theorem discard_all_pending_runs_empty_listing_never_terminates :
    ∀ (fuel i : Nat), discard_all_pending_runs (fun _ => []) i fuel = none := by
  intro fuel
  induction fuel with
  | zero => intro i; rfl
  | succ f ih =>
    intro i
    simpa [discard_all_pending_runs, discardPass] using ih (i + 1)

/-- Claim C3 (code evidence): a listing pass containing a run in state
"planned" makes `discard_all_pending_runs` raise `AttributeError` (the
called method `discard_plan` does not exist; only `discard_plan_by_id`
is defined), so no discard request is ever issued for it. -/
theorem discard_all_pending_runs_planned_raises_attr_error :
    discard_all_pending_runs (fun _ => [plannedRun]) 0 5
      = some (Except.error
          (PyErr.attrErr "TE2WorkspaceRuns object has no attribute discard_plan")) := rfl

/-- Claim C8: `get_workspace_id` raises `KeyError` both when no workspace
in the listing carries the requested name and when the listing call
itself returns a non-2xx status. -/
theorem get_workspace_id_not_found (resp : HttpResp (List Workspace))
    (workspace_name : String) :
    ((∀ ws ∈ resp.body, ws.name ≠ workspace_name) →
      isKeyErr (get_workspace_id resp workspace_name) = true)
    ∧ (is2xx resp.status = false →
      isKeyErr (get_workspace_id resp workspace_name) = true) := by
  constructor
  · intro h
    by_cases h2 : is2xx resp.status = true
    · have hfind : resp.body.find? (fun obj => obj.name == workspace_name) = none := by
        rw [List.find?_eq_none]
        intro ws hws
        simpa using h ws hws
      simp [get_workspace_id, get_all_workspaces, h2, hfind, isKeyErr]
    · simp [get_workspace_id, get_all_workspaces,
        Bool.eq_false_iff.mpr h2, isKeyErr]
  · intro h2
    simp [get_workspace_id, get_all_workspaces, h2, isKeyErr]

/-- Witness for claim C8: a listing holding only a workspace named
"alpha" makes the lookup of "beta" raise `KeyError`, and a failed (404)
listing does too. -/
theorem get_workspace_id_not_found_witness :
    isKeyErr (get_workspace_id ⟨200, [⟨"ws-1", "alpha"⟩]⟩ "beta") = true
    ∧ isKeyErr (get_workspace_id ⟨404, [⟨"ws-1", "beta"⟩]⟩ "beta") = true :=
  ⟨(get_workspace_id_not_found ⟨200, [⟨"ws-1", "alpha"⟩]⟩ "beta").1 (by decide),
   (get_workspace_id_not_found ⟨404, [⟨"ws-1", "beta"⟩]⟩ "beta").2 (by decide)⟩

/-- Claim C6 (code evidence): an upsert of key "foo" while the listing
already holds a variable with key "foo" (id "var-1") raises `TypeError`
— the update branch concatenates the patch path with the whole variable
record instead of its id — and issues no request at all, in particular
no PATCH against "var-1". -/
theorem upsert_existing_key_raises_type_error :
    create_or_update_workspace_variable ⟨200, [⟨"var-1", "foo"⟩]⟩ 200
      "foo" "bar" "terraform" false false
      = ([], Except.error (PyErr.typeErr "can only concatenate str to str")) := rfl

/-- Claim C7: every variable request actually issued by
`create_or_update_workspace_variable` carries the input key and value
with every space character replaced by an underscore. -/
theorem upsert_transmits_underscored_key_value
    (varsResp : HttpResp (List WVariable)) (postStatus : Nat)
    (key value category : String) (sensitive hcl : Bool) (e : VarEffect)
    (he : e ∈ (create_or_update_workspace_variable varsResp postStatus
      key value category sensitive hcl).1) :
    e.body.key = underscoreSpaces key ∧ e.body.value = underscoreSpaces value := by
  unfold create_or_update_workspace_variable at he
  by_cases hcat : (category != "env" && category != "terraform") = true
  · rw [if_pos hcat] at he
    simp at he
  · rw [if_neg hcat] at he
    cases hv : get_variable_by_name varsResp key with
    | error err =>
      rw [hv] at he
      simp at he
      subst he
      exact ⟨rfl, rfl⟩
    | ok existing =>
      rw [hv] at he
      simp at he

/-- Witness for claim C7: upserting key "my key" with value "my val"
issues a create whose body carries "my_key" and "my_val". -/
theorem upsert_transmits_underscored_key_value_witness :
    (VarEffect.create ⟨"my_key", "my_val", "env", false, false⟩).body.key
      = underscoreSpaces "my key" :=
  (upsert_transmits_underscored_key_value ⟨200, []⟩ 200 "my key" "my val" "env"
    false false (VarEffect.create ⟨"my_key", "my_val", "env", false, false⟩)
    (by decide)).1

/-- A successful `get_variable_by_name` lookup returns a record of the
listing whose key equals the requested name. -/
theorem get_variable_by_name_ok (resp : HttpResp (List WVariable)) (name : String)
    (v : WVariable) (h : get_variable_by_name resp name = Except.ok v) :
    v ∈ resp.body ∧ v.key = name := by
  unfold get_variable_by_name get_workspace_variables at h
  by_cases h2 : is2xx resp.status = true
  · rw [if_pos h2] at h
    cases hfind : resp.body.find? (fun var => var.key == name) with
    | none => simp [hfind] at h
    | some w =>
      simp only [hfind, Except.ok.injEq] at h
      subst h
      refine ⟨List.mem_of_find?_eq_some hfind, ?_⟩
      have := List.find?_some hfind
      simpa using this
  · rw [if_neg h2] at h
    simp at h

/-- Claim C10: when the key contains a space and every key present in the
workspace listing is space-free (as is the case for the listing holding
the underscored form of the key, or anything this client itself created),
`create_or_update_workspace_variable` takes the create branch: it issues
exactly one create request, carrying the underscored key, and no update
request — because the existence lookup uses the original spaced key while
the transmitted payload uses the underscored one. -/
theorem upsert_spaced_key_always_creates
    (varsResp : HttpResp (List WVariable)) (postStatus : Nat)
    (key value category : String) (sensitive hcl : Bool)
    (hkey : hasSpace key = true)
    (hvars : ∀ v ∈ varsResp.body, hasSpace v.key = false)
    (hcat : category = "env" ∨ category = "terraform") :
    (create_or_update_workspace_variable varsResp postStatus
        key value category sensitive hcl).1
      = [VarEffect.create (_render_request_data_workplace_variable_attributes
          (underscoreSpaces key) (underscoreSpaces value) category sensitive hcl)] := by
  have hcatguard : (category != "env" && category != "terraform") = false := by
    rcases hcat with h | h <;> simp [h]
  cases hv : get_variable_by_name varsResp key with
  | error err =>
    simp [create_or_update_workspace_variable, hcatguard, hv]
  | ok existing =>
    obtain ⟨hmem, hkeq⟩ := get_variable_by_name_ok varsResp key existing hv
    have hfree := hvars existing hmem
    rw [hkeq] at hfree
    rw [hfree] at hkey
    exact absurd hkey Bool.false_ne_true

/-- Witness for claim C10: key "my key" is looked up while the listing
holds its underscored form "my_key"; the lookup misses and one create
request with the underscored key is issued. -/
theorem upsert_spaced_key_always_creates_witness :
    (create_or_update_workspace_variable ⟨200, [⟨"var-9", "my_key"⟩]⟩ 200
        "my key" "v 1" "env" false false).1
      = [VarEffect.create (_render_request_data_workplace_variable_attributes
          (underscoreSpaces "my key") (underscoreSpaces "v 1") "env" false false)] :=
  upsert_spaced_key_always_creates ⟨200, [⟨"var-9", "my_key"⟩]⟩ 200 "my key" "v 1"
    "env" false false (by decide) (by decide) (Or.inl rfl)

/-- A world whose discard loop converges on the first pass (one already
applied run), whose run submission fails with status 404. -/
def exampleWorldC4 : World :=
  ⟨"ws-demo", ⟨200, [⟨"ws-1", "ws-demo"⟩]⟩, fun _ => [appliedRun],
   ⟨200, []⟩, 200, 404, appliedRun, fun _ => appliedRun⟩

/-- A world whose discard loop converges, whose run submission succeeds,
and whose polls report "planning" forever, so the poll loop times out. -/
def exampleWorldTimeout : World :=
  ⟨"ws-demo", ⟨200, [⟨"ws-1", "ws-demo"⟩]⟩, fun _ => [appliedRun],
   ⟨200, []⟩, 200, 201, ⟨"run-9", "pending", false⟩, fun _ => planningRun⟩

/-- A world in which every run listing holds two stale runs in state
"planned". -/
def exampleWorldStale : World :=
  ⟨"ws-demo", ⟨200, [⟨"ws-1", "ws-demo"⟩]⟩,
   fun _ => [⟨"stale-1", "planned", false⟩, ⟨"stale-2", "planned", false⟩],
   ⟨200, []⟩, 200, 201, appliedRun, fun _ => appliedRun⟩

/-- Claim C4: whenever the discard phase converges and the destroy-flag
step completes, a non-2xx run-submission response makes `request_run`
return the empty result (`none` models the `{}`) normally — the raised
`SyntaxError` is caught by the `except SyntaxError` handler — with the
submission POST as the only run-level request after the variable ones. -/
theorem request_run_submission_failure_returns_empty
    (w : World) (request_type : String) (destroy : Bool) (fuel : Nat)
    (veff : List Effect)
    (hdiscard : discard_all_pending_runs w.runListings 0 fuel = some (Except.ok true))
    (hvar : destroyStep w destroy = (veff, Except.ok ()))
    (hpost : is2xx w.runPostStatus = false) :
    request_run w request_type destroy fuel
      = some (veff ++ [Effect.runCreate destroy], none) := by
  simp [request_run, requestRunBody, _request_run_request, hdiscard, hvar, hpost]

/-- Witness for claim C4: in `exampleWorldC4` the submission returns 404
and `request_run` returns the empty result after one run-create POST. -/
theorem request_run_submission_failure_returns_empty_witness :
    request_run exampleWorldC4 "plan" false 3
      = some ([Effect.runCreate false], none) :=
  request_run_submission_failure_returns_empty exampleWorldC4 "plan" false 3 []
    rfl rfl rfl

/-- Claim C5 (code evidence): submitting a destroy-apply via
`request_run` while two stale "planned" runs exist crashes in the discard
loop on the first planned run (`discard_plan` does not exist), the
`AttributeError` is swallowed by the `finally` return, and the call
returns the empty result having issued no discard, no variable upsert and
no run-create request at all. -/
theorem request_run_destroy_apply_stale_planned_crashes :
    request_run exampleWorldStale "apply" true 5 = some ([], none) := rfl

/-- Claim C9: whatever exception is in flight when control reaches the
`finally` block — a swallowed submission error has already been handled,
and here an arbitrary `e` such as the poll-loop `TimeoutError` or the
discard loop `AttributeError` is still pending — `request_run` returns
the `results` value accumulated so far instead of re-raising. -/
theorem request_run_swallows_in_flight_exception
    (w : World) (request_type : String) (destroy : Bool) (fuel : Nat)
    (eff : List Effect) (results : Option Run) (e : PyErr)
    (hbody : requestRunBody w request_type destroy fuel
      = some (eff, results, Except.error e)) :
    request_run w request_type destroy fuel = some (eff, results) := by
  simp [request_run, hbody]

/-- Witness for claim C9: in `exampleWorldTimeout` the poll loop raises
`TimeoutError` after 120 polls, yet `request_run` returns the still-empty
results value (with the submission POST and 120 sleeps in the trace). -/
theorem request_run_swallows_in_flight_exception_witness :
    request_run exampleWorldTimeout "plan" false 3
      = some (Effect.runCreate false :: List.replicate 120 Effect.sleep, none) :=
  request_run_swallows_in_flight_exception exampleWorldTimeout "plan" false 3
    (Effect.runCreate false :: List.replicate 120 Effect.sleep) none
    (PyErr.timeoutErr "Plan took too long to resolve") rfl
